import Mathlib

/-!
Shallow embedding of the accounting engine in `src/Balance.py` (class
`AperturaData`): the data model (journal, ledger, control-account balances),
every mutating operation, and the numeric content of the report generators.

Modelling conventions:
* Python floats carrying monetary amounts are embedded as exact rationals
  (`ℚ`); the arithmetic of every claim is algebraic, not about rounding.
* `datetime.now()` is an environment input: each operation takes the date
  string `fecha` as an explicit argument.
* Python `raise ValueError(msg)` is embedded as `Except.error msg`; every
  check in the source happens before any field mutation, so an error leaves
  the state untouched, which the embedding makes literal.
* Python dicts (`ledger_accounts`, the depreciation argument) preserve
  insertion order; they are embedded as association lists where a new key is
  appended at the end, mirroring iteration order of `dict.items()`.
-/

namespace Balance

/-- One movement (line) of a ledger account, as appended by `post_to_ledger`:
date, description, transaction code, debit (`debe`) and credit (`haber`). -/
structure Posting where
  fecha : String
  descripcion : String
  trans_code : String
  debe : ℚ
  haber : ℚ
deriving DecidableEq, Repr

/-- One line of a journal entry: `(cuenta, debe, haber)` as in the Python
triples passed to `registrar_en_libro_diario`. -/
abbrev Linea := String × ℚ × ℚ

/-- One journal entry (`asiento`) of `libro_diario`: date, description,
line items, and transaction code. -/
structure Asiento where
  fecha : String
  descripcion : String
  lines : List Linea
  code : String
deriving DecidableEq, Repr

/-- The ledger `ledger_accounts`: an insertion-ordered map from account name
to its list of postings (Python dict of lists). -/
abbrev Ledger := List (String × List Posting)

/-- Append a posting to the account `cuenta` of the ledger, creating the
account at the end if absent: the body of the loop of `post_to_ledger`. -/
def ledgerAppend : Ledger → String → Posting → Ledger
  | [], cuenta, p => [(cuenta, [p])]
  | (c, ps) :: rest, cuenta, p =>
      if c = cuenta then (c, ps ++ [p]) :: rest
      else (c, ps) :: ledgerAppend rest cuenta p

/-- `post_to_ledger`: posts each line of an entry into the ledger. -/
def post_to_ledger (led : Ledger) (fecha descripcion : String)
    (lineas : List Linea) (trans_code : String) : Ledger :=
  lineas.foldl
    (fun acc l => ledgerAppend acc l.1 ⟨fecha, descripcion, trans_code, l.2.1, l.2.2⟩)
    led

/-- The whole engine state: the fields set in `AperturaData.__init__`. -/
structure AperturaData where
  company_name : String
  apertura_realizada : Bool
  iva_rate : ℚ
  caja : ℚ
  inventario : ℚ
  rentas_anticipadas : ℚ
  activos_no_circulantes : List (String × ℚ)
  iva_acreditable : ℚ
  iva_por_acreditar : ℚ
  acreedores : ℚ
  documentos_por_pagar : ℚ
  anticipo_clientes : List (String × ℚ)
  total_circulante : ℚ
  total_no_circulante : ℚ
  total_activo : ℚ
  total_pasivo : ℚ
  capital : ℚ
  libro_diario : List Asiento
  ledger_accounts : Ledger
deriving DecidableEq, Repr

/-- The initial state built by `AperturaData.__init__`. -/
def initData : AperturaData where
  company_name := "Mi Empresa"
  apertura_realizada := false
  iva_rate := 16/100
  caja := 0
  inventario := 0
  rentas_anticipadas := 0
  activos_no_circulantes := []
  iva_acreditable := 0
  iva_por_acreditar := 0
  acreedores := 0
  documentos_por_pagar := 0
  anticipo_clientes := []
  total_circulante := 0
  total_no_circulante := 0
  total_activo := 0
  total_pasivo := 0
  capital := 0
  libro_diario := []
  ledger_accounts := []

/-- `sum(valor for _, valor in l)` over a list of `(name, value)` pairs. -/
def sumSnd (l : List (String × ℚ)) : ℚ := (l.map Prod.snd).sum

/-- `registrar_en_libro_diario`: appends the entry to `libro_diario` and
immediately posts its lines to the ledger. -/
def registrar_en_libro_diario (s : AperturaData) (fecha descripcion : String)
    (lineas : List Linea) (trans_code : String) : AperturaData :=
  { s with
    libro_diario := s.libro_diario ++ [⟨fecha, descripcion, lineas, trans_code⟩],
    ledger_accounts :=
      post_to_ledger s.ledger_accounts fecha descripcion lineas trans_code }

/-- `recalcular_totales`: recomputes the derived totals from scratch. -/
def recalcular_totales (s : AperturaData) : AperturaData :=
  let total_activo_circulante :=
    s.caja + s.inventario + s.rentas_anticipadas + s.iva_acreditable + s.iva_por_acreditar
  let tnc := sumSnd s.activos_no_circulantes
  let anticipo_total := sumSnd s.anticipo_clientes
  { s with
    total_circulante := total_activo_circulante
    total_no_circulante := tnc
    total_activo := total_activo_circulante + tnc
    total_pasivo := s.acreedores + s.documentos_por_pagar + anticipo_total }

/-- `calcular_asiento_apertura`: the opening operation. Note that the source
has no check of `apertura_realizada`; it unconditionally opens (again). -/
def calcular_asiento_apertura (s : AperturaData) (fecha : String) : AperturaData :=
  let total_activo_circulante := s.caja
  let total_no_circulante := sumSnd s.activos_no_circulantes
  let total_activo := total_activo_circulante + total_no_circulante
  let s1 := { s with
    total_activo := total_activo
    capital := total_activo
    total_pasivo := 0
    apertura_realizada := true }
  let lineas : List Linea :=
    (if s.caja > 0 then [("Caja", s.caja, (0 : ℚ))] else [])
    ++ s.activos_no_circulantes.map (fun nv => (nv.1, nv.2, (0 : ℚ)))
    ++ [("Capital (Apertura)", (0 : ℚ), total_activo)]
  recalcular_totales
    (registrar_en_libro_diario s1 fecha "Asiento de Apertura" lineas "A")

/-- The message of the `ValueError` raised when an operation is invoked
before opening. -/
def msgApertura : String := "Debe realizar primero el Asiento de Apertura."

/-- `compra_en_efectivo` (code 1). -/
def compra_en_efectivo (s : AperturaData) (fecha nombre : String) (valor : ℚ) :
    Except String AperturaData :=
  if !s.apertura_realizada then .error msgApertura
  else
    let iva := valor * s.iva_rate
    let s1 := recalcular_totales { s with
      inventario := s.inventario + valor
      iva_acreditable := s.iva_acreditable + iva
      caja := s.caja - (valor + iva) }
    let lineas : List Linea :=
      [("Inventario", valor, 0),
       ("IVA Acreditable", iva, 0),
       ("Caja", 0, valor + iva)]
    .ok (registrar_en_libro_diario s1 fecha ("Compra en Efectivo - " ++ nombre) lineas "1")

/-- `compra_a_credito` (code 2). -/
def compra_a_credito (s : AperturaData) (fecha nombre : String) (valor : ℚ) :
    Except String AperturaData :=
  if !s.apertura_realizada then .error msgApertura
  else
    let iva := valor * s.iva_rate
    let s1 := recalcular_totales { s with
      activos_no_circulantes := s.activos_no_circulantes ++ [(nombre, valor)]
      iva_por_acreditar := s.iva_por_acreditar + iva
      acreedores := s.acreedores + (valor + iva) }
    let lineas : List Linea :=
      [(nombre, valor, 0),
       ("IVA por Acreditar", iva, 0),
       ("Acreedores", 0, valor + iva)]
    .ok (registrar_en_libro_diario s1 fecha ("Compra a Crédito - " ++ nombre) lineas "2")

/-- `compra_combinada` (code 3). -/
def compra_combinada (s : AperturaData) (fecha nombre : String) (valor : ℚ) :
    Except String AperturaData :=
  if !s.apertura_realizada then .error msgApertura
  else
    let iva_total := valor * s.iva_rate
    let mitad_valor := valor / 2
    let mitad_iva := iva_total / 2
    let s1 := recalcular_totales { s with
      activos_no_circulantes := s.activos_no_circulantes ++ [(nombre, valor)]
      caja := s.caja - (mitad_valor + mitad_iva)
      iva_acreditable := s.iva_acreditable + mitad_iva
      documentos_por_pagar := s.documentos_por_pagar + (mitad_valor + mitad_iva)
      iva_por_acreditar := s.iva_por_acreditar + mitad_iva }
    let lineas : List Linea :=
      [(nombre, valor, 0),
       ("IVA Acreditable", mitad_iva, 0),
       ("IVA por Acreditar", mitad_iva, 0),
       ("Caja", 0, mitad_valor + mitad_iva),
       ("Documentos por Pagar", 0, mitad_valor + mitad_iva)]
    .ok (registrar_en_libro_diario s1 fecha ("Compra Combinada - " ++ nombre) lineas "3")

/-- `pago_rentas_op` (code 4). -/
def pago_rentas_op (s : AperturaData) (fecha nombre : String) (valor : ℚ) :
    Except String AperturaData :=
  if !s.apertura_realizada then .error msgApertura
  else
    let iva_renta := valor * s.iva_rate
    let s1 := recalcular_totales { s with
      rentas_anticipadas := s.rentas_anticipadas + valor
      iva_acreditable := s.iva_acreditable + iva_renta
      caja := s.caja - (valor + iva_renta) }
    let lineas : List Linea :=
      [("Rentas Pagadas Anticipado", valor, 0),
       ("IVA Acreditable", iva_renta, 0),
       ("Caja", 0, valor + iva_renta)]
    .ok (registrar_en_libro_diario s1 fecha ("Pago Rentas - " ++ nombre) lineas "4")

/-- `compra_papeleria_op` (code 5). -/
def compra_papeleria_op (s : AperturaData) (fecha nombre : String) (valor : ℚ) :
    Except String AperturaData :=
  if !s.apertura_realizada then .error msgApertura
  else
    let iva := valor * s.iva_rate
    let s1 := recalcular_totales { s with
      activos_no_circulantes := s.activos_no_circulantes ++ [("Papelería - " ++ nombre, valor)]
      iva_acreditable := s.iva_acreditable + iva
      caja := s.caja - (valor + iva) }
    let lineas : List Linea :=
      [("Papelería - " ++ nombre, valor, 0),
       ("IVA Acreditable", iva, 0),
       ("Caja", 0, valor + iva)]
    .ok (registrar_en_libro_diario s1 fecha ("Compra Papelería - " ++ nombre) lineas "5")

/-- `anticipo_clientes_op` (code 6). -/
def anticipo_clientes_op (s : AperturaData) (fecha nombre : String) (venta : ℚ) :
    Except String AperturaData :=
  if !s.apertura_realizada then .error msgApertura
  else
    let half_sale := venta / 2
    let half_iva := half_sale * s.iva_rate
    let s1 := recalcular_totales { s with
      caja := s.caja + (half_sale + half_iva)
      anticipo_clientes := s.anticipo_clientes ++
        [("Anticipo de Clientes - " ++ nombre, half_sale),
         ("IVA Trasladado - " ++ nombre, half_iva)] }
    let lineas : List Linea :=
      [("Caja", half_sale + half_iva, 0),
       ("Anticipo de Clientes - " ++ nombre, 0, half_sale),
       ("IVA Trasladado - " ++ nombre, 0, half_iva)]
    .ok (registrar_en_libro_diario s1 fecha ("Anticipo de Clientes - " ++ nombre) lineas "6")

/-- `registrar_venta` (code V). -/
def registrar_venta (s : AperturaData) (fecha descripcion : String) (monto : ℚ) :
    Except String AperturaData :=
  if !s.apertura_realizada then .error msgApertura
  else
    let iva_venta := monto * s.iva_rate
    let s1 := recalcular_totales { s with caja := s.caja + (monto + iva_venta) }
    let lineas : List Linea :=
      [("Caja", monto + iva_venta, 0),
       ("Ventas", 0, monto),
       ("IVA Trasladado", 0, iva_venta)]
    .ok (registrar_en_libro_diario s1 fecha ("Venta - " ++ descripcion) lineas "V")

/-- The message of the `ValueError` raised by `registrar_costo_vendido` when
the requested cost exceeds the inventory balance. -/
def msgInventario : String := "No hay suficiente inventario para ese costo."

/-- `registrar_costo_vendido` (code CV): checks the inventory guard before
any mutation. -/
def registrar_costo_vendido (s : AperturaData) (fecha descripcion : String) (costo : ℚ) :
    Except String AperturaData :=
  if !s.apertura_realizada then .error msgApertura
  else if costo > s.inventario then .error msgInventario
  else
    let s1 := recalcular_totales { s with inventario := s.inventario - costo }
    let lineas : List Linea :=
      [("Costo de lo Vendido", costo, 0),
       ("Inventario", 0, costo)]
    .ok (registrar_en_libro_diario s1 fecha ("Costo de lo Vendido - " ++ descripcion) lineas "CV")

/-- `registrar_gastos_generales` (code G). -/
def registrar_gastos_generales (s : AperturaData) (fecha descripcion : String) (monto : ℚ) :
    Except String AperturaData :=
  if !s.apertura_realizada then .error msgApertura
  else
    let s1 := recalcular_totales { s with caja := s.caja - monto }
    let lineas : List Linea :=
      [("Gastos Generales", monto, 0),
       ("Caja", 0, monto)]
    .ok (registrar_en_libro_diario s1 fecha ("Gastos Generales - " ++ descripcion) lineas "G")

/-- `anular_anticipo_cliente` (code AA): note the lines as written in the
source, debiting both `Caja` and `Anticipo de Clientes`. -/
def anular_anticipo_cliente (s : AperturaData) (fecha descripcion : String) (monto : ℚ) :
    Except String AperturaData :=
  if !s.apertura_realizada then .error msgApertura
  else
    let iva_venta := monto * s.iva_rate
    let s1 := recalcular_totales { s with caja := s.caja + (monto + iva_venta) }
    let lineas : List Linea :=
      [("Caja", monto + iva_venta, 0),
       ("Anticipo de Clientes", monto, 0),
       ("IVA Trasladado", 0, iva_venta),
       ("Ventas", 0, monto)]
    .ok (registrar_en_libro_diario s1 fecha ("Anular anticipo - " ++ descripcion) lineas "AA")

/-- `registrar_depreciacion` (code DEP): one debit to `Gastos Generales` for
the total and one credit per accumulated-depreciation account; the source
registers the entry before recomputing totals. -/
def registrar_depreciacion (s : AperturaData) (fecha descripcion : String)
    (dict_depreciaciones : List (String × ℚ)) : Except String AperturaData :=
  if !s.apertura_realizada then .error msgApertura
  else
    let total_dep := sumSnd dict_depreciaciones
    let lineas : List Linea :=
      ("Gastos Generales", total_dep, 0) ::
        dict_depreciaciones.map (fun cv => (cv.1, (0 : ℚ), cv.2))
    .ok (recalcular_totales
      (registrar_en_libro_diario s fecha ("Depreciaciones - " ++ descripcion) lineas "DEP"))

/-- One engine operation together with its environment inputs (date string
and the caller-collected arguments). `apertura` bundles the UI steps of
`mostrar_asiento_apertura`: set `caja`, append the collected non-current
assets, then call `calcular_asiento_apertura`. -/
inductive Op where
  | apertura (fecha : String) (cash : ℚ) (activos : List (String × ℚ))
  | compraEfectivo (fecha nombre : String) (valor : ℚ)
  | compraCredito (fecha nombre : String) (valor : ℚ)
  | compraCombinada (fecha nombre : String) (valor : ℚ)
  | pagoRentas (fecha nombre : String) (valor : ℚ)
  | compraPapeleria (fecha nombre : String) (valor : ℚ)
  | anticipoClientes (fecha nombre : String) (venta : ℚ)
  | venta (fecha descripcion : String) (monto : ℚ)
  | costoVendido (fecha descripcion : String) (costo : ℚ)
  | gastosGenerales (fecha descripcion : String) (monto : ℚ)
  | anularAnticipo (fecha descripcion : String) (monto : ℚ)
  | depreciacion (fecha descripcion : String) (deps : List (String × ℚ))
deriving DecidableEq, Repr

/-- Dispatch one operation on the state; the opening never fails (it has no
already-opened check in the source), every other operation may raise. -/
def applyOp : Op → AperturaData → Except String AperturaData
  | .apertura fecha cash activos, s =>
      .ok (calcular_asiento_apertura
        { s with caja := cash,
                 activos_no_circulantes := s.activos_no_circulantes ++ activos } fecha)
  | .compraEfectivo fecha nombre valor, s => compra_en_efectivo s fecha nombre valor
  | .compraCredito fecha nombre valor, s => compra_a_credito s fecha nombre valor
  | .compraCombinada fecha nombre valor, s => compra_combinada s fecha nombre valor
  | .pagoRentas fecha nombre valor, s => pago_rentas_op s fecha nombre valor
  | .compraPapeleria fecha nombre valor, s => compra_papeleria_op s fecha nombre valor
  | .anticipoClientes fecha nombre venta, s => anticipo_clientes_op s fecha nombre venta
  | .venta fecha descripcion monto, s => registrar_venta s fecha descripcion monto
  | .costoVendido fecha descripcion costo, s => registrar_costo_vendido s fecha descripcion costo
  | .gastosGenerales fecha descripcion monto, s => registrar_gastos_generales s fecha descripcion monto
  | .anularAnticipo fecha descripcion monto, s => anular_anticipo_cliente s fecha descripcion monto
  | .depreciacion fecha descripcion deps, s => registrar_depreciacion s fecha descripcion deps

/-- Whether the operation is the opening one. -/
def opEsApertura : Op → Bool
  | .apertura _ _ _ => true
  | _ => false

/-- Run one operation the way the UI drives the engine: a raised
`ValueError` is caught and the previous state is kept. -/
def runOp (op : Op) (s : AperturaData) : AperturaData :=
  match applyOp op s with
  | .ok s1 => s1
  | .error _ => s

/-- Run a sequence of operations from a state. -/
def runOps (ops : List Op) (s : AperturaData) : AperturaData :=
  ops.foldl (fun acc op => runOp op acc) s

/-- Whether an `Except` result is a success. -/
def esOk : Except String AperturaData → Bool
  | .ok _ => true
  | .error _ => false

/-! ### Numeric content of the report generators -/

/-- Sum of the debit column of an entry's lines (the per-entry part of the
`total_debe` accumulation of `generar_libro_diario`). -/
def sumaDebe (lineas : List Linea) : ℚ := (lineas.map (fun l => l.2.1)).sum

/-- Sum of the credit column of an entry's lines. -/
def sumaHaber (lineas : List Linea) : ℚ := (lineas.map (fun l => l.2.2)).sum

/-- `total_debe` of one ledger account in `generar_tabla_mayor` and
`generar_balanza_comprobacion`: sum of the `debe` of its postings. -/
def cuentaTotalDebe (movimientos : List Posting) : ℚ :=
  (movimientos.map Posting.debe).sum

/-- `total_haber` of one ledger account. -/
def cuentaTotalHaber (movimientos : List Posting) : ℚ :=
  (movimientos.map Posting.haber).sum

/-- The postings of an account in the ledger (empty when the account has
never been posted to): Python dict lookup on the insertion-ordered map. -/
def lookupCuenta : Ledger → String → List Posting
  | [], _ => []
  | (c, ps) :: rest, cuenta => if c = cuenta then ps else lookupCuenta rest cuenta

/-- The `SALDO` figure printed by `generar_tabla_mayor` for an account:
`total_debe - total_haber` over its postings. -/
def saldoMayor (led : Ledger) (cuenta : String) : ℚ :=
  cuentaTotalDebe (lookupCuenta led cuenta) - cuentaTotalHaber (lookupCuenta led cuenta)

/-- Independent replay of the journal log for one account, following the
spec: collect, over all entries in order, the lines naming the account and
sum their debits minus credits. -/
def replaySaldo (diario : List Asiento) (cuenta : String) : ℚ :=
  (diario.map (fun a =>
    ((a.lines.filter (fun l => l.1 = cuenta)).map (fun l => l.2.1 - l.2.2)).sum)).sum

/-- `diff_debe` of one row of `generar_balanza_comprobacion`. -/
def diffDebe (total_debe total_haber : ℚ) : ℚ :=
  if total_debe > total_haber then total_debe - total_haber else 0

/-- `diff_haber` of one row of `generar_balanza_comprobacion`. -/
def diffHaber (total_debe total_haber : ℚ) : ℚ :=
  if total_debe > total_haber then 0 else total_haber - total_debe

/-- `sum_debe1` of the trial balance: grand total of the debit column. -/
def sumDebe1 (led : Ledger) : ℚ := (led.map (fun cp => cuentaTotalDebe cp.2)).sum

/-- `sum_haber1` of the trial balance: grand total of the credit column. -/
def sumHaber1 (led : Ledger) : ℚ := (led.map (fun cp => cuentaTotalHaber cp.2)).sum

/-- `sum_debe2` of the trial balance: grand total of the debit-difference
column. -/
def sumDebe2 (led : Ledger) : ℚ :=
  (led.map (fun cp => diffDebe (cuentaTotalDebe cp.2) (cuentaTotalHaber cp.2))).sum

/-- `sum_haber2` of the trial balance: grand total of the credit-difference
column. -/
def sumHaber2 (led : Ledger) : ℚ :=
  (led.map (fun cp => diffHaber (cuentaTotalDebe cp.2) (cuentaTotalHaber cp.2))).sum

/-- Whether the character list `n` is a prefix of the second list. -/
def esPrefijo : List Char → List Char → Bool
  | [], _ => true
  | _ :: _, [] => false
  | a :: as, b :: bs => a == b && esPrefijo as bs

/-- Whether the character list `n` occurs contiguously in the second list. -/
def contieneLista (n : List Char) : List Char → Bool
  | [] => n.isEmpty
  | c :: rest => esPrefijo n (c :: rest) || contieneLista n rest

/-- The Python substring test `sub in s` on account names. -/
def contiene (sub s : String) : Bool := contieneLista sub.toList s.toList

/-- `total_ventas` of `generar_balance_general`: the credit totals of the
accounts whose name contains `Ventas`. -/
def totalVentasBG (led : Ledger) : ℚ :=
  (led.map (fun cp => if contiene "Ventas" cp.1 then cuentaTotalHaber cp.2 else 0)).sum

/-- `total_costo` of `generar_balance_general`: the source sums the CREDIT
(`haber`) field of the accounts whose name contains `Costo de lo Vendido`. -/
def totalCostoBG (led : Ledger) : ℚ :=
  (led.map (fun cp => if contiene "Costo de lo Vendido" cp.1 then cuentaTotalHaber cp.2 else 0)).sum

/-- `total_gastos` of `generar_balance_general`: the debit totals of the
accounts whose name contains `Gastos Generales`. -/
def totalGastosBG (led : Ledger) : ℚ :=
  (led.map (fun cp => if contiene "Gastos Generales" cp.1 then cuentaTotalDebe cp.2 else 0)).sum

/-- `utilidad_bruta` of `generar_balance_general`. -/
def utilidadBrutaBG (led : Ledger) : ℚ := totalVentasBG led - totalCostoBG led

/-! ### Rebuilding the ledger from the journal -/

/-- Post all lines of one entry to the ledger. -/
def postAsiento (led : Ledger) (a : Asiento) : Ledger :=
  post_to_ledger led a.fecha a.descripcion a.lines a.code

/-- Rebuild the whole ledger by replaying the journal in order. -/
def rebuildLedger (diario : List Asiento) : Ledger :=
  diario.foldl postAsiento []

/-- The key state invariant: the ledger is exactly the journal replayed. -/
def ledgerInv (s : AperturaData) : Prop :=
  s.ledger_accounts = rebuildLedger s.libro_diario

/-- Sum over the accounts of total debit minus total credit. -/
def ledgerNet (led : Ledger) : ℚ :=
  (led.map (fun cp => cuentaTotalDebe cp.2 - cuentaTotalHaber cp.2)).sum

/-- Sum, over the accounts whose name contains `sub`, of the credit totals:
the common shape of the accumulations of `generar_balance_general`. -/
def haberMatch (sub : String) (led : Ledger) : ℚ :=
  (led.map (fun cp => if contiene sub cp.1 then cuentaTotalHaber cp.2 else 0)).sum

/-- The account-name substring driving the `total_costo` accumulation. -/
def cadCosto : String := "Costo de lo Vendido"

/-- Input-level rendering of the hypothesis that postings to accounts whose
name contains `Costo de lo Vendido` are created only by the cost-of-goods
operation: no caller-supplied account name of any other operation contains
that substring. Fixed account names of the engine never contain it. -/
def opSinCosto : Op → Bool
  | .apertura _ _ activos => activos.all (fun nv => !(contiene cadCosto nv.1))
  | .compraCredito _ nombre _ => !(contiene cadCosto nombre)
  | .compraCombinada _ nombre _ => !(contiene cadCosto nombre)
  | .compraPapeleria _ nombre _ => !(contiene cadCosto ("Papelería - " ++ nombre))
  | .anticipoClientes _ nombre _ =>
      !(contiene cadCosto ("Anticipo de Clientes - " ++ nombre)) &&
        !(contiene cadCosto ("IVA Trasladado - " ++ nombre))
  | .depreciacion _ _ deps => deps.all (fun cv => !(contiene cadCosto cv.1))
  | _ => true

/-! ### Ledger lemmas -/

theorem lookup_ledgerAppend (led : Ledger) (c : String) (p : Posting) (c' : String) :
    lookupCuenta (ledgerAppend led c p) c' =
      lookupCuenta led c' ++ (if c = c' then [p] else []) := by
  induction led with
  | nil =>
      by_cases h : c = c' <;> simp [ledgerAppend, lookupCuenta, h]
  | cons hd tl ih =>
      obtain ⟨c0, ps⟩ := hd
      by_cases h1 : c0 = c
      · subst h1
        by_cases h2 : c0 = c' <;> simp [ledgerAppend, lookupCuenta, h2]
      · by_cases h2 : c0 = c'
        · subst h2
          have hcc : ¬ c = c0 := fun h => h1 h.symm
          simp [ledgerAppend, lookupCuenta, h1, hcc]
        · simp [ledgerAppend, lookupCuenta, h1, h2, ih]

theorem lookup_post_to_ledger (ls : List Linea) (led : Ledger)
    (f d code c' : String) :
    lookupCuenta (post_to_ledger led f d ls code) c' =
      lookupCuenta led c' ++
        (ls.filter (fun l => l.1 = c')).map (fun l => ⟨f, d, code, l.2.1, l.2.2⟩) := by
  induction ls generalizing led with
  | nil => simp [post_to_ledger]
  | cons l rest ih =>
      have hstep : post_to_ledger led f d (l :: rest) code =
          post_to_ledger (ledgerAppend led l.1 ⟨f, d, code, l.2.1, l.2.2⟩) f d rest code := rfl
      rw [hstep, ih, lookup_ledgerAppend]
      by_cases h : l.1 = c' <;> simp [h, List.filter_cons]

theorem sum_map_sub (l : List Linea) (f g : Linea → ℚ) :
    (l.map f).sum - (l.map g).sum = (l.map (fun x => f x - g x)).sum := by
  induction l with
  | nil => simp
  | cons x xs ih =>
      simp only [List.map_cons, List.sum_cons]
      rw [← ih]; ring

theorem saldo_postAsiento (led : Ledger) (a : Asiento) (c : String) :
    saldoMayor (postAsiento led a) c =
      saldoMayor led c +
        ((a.lines.filter (fun l => l.1 = c)).map (fun l => l.2.1 - l.2.2)).sum := by
  simp only [saldoMayor, postAsiento, lookup_post_to_ledger, cuentaTotalDebe,
    cuentaTotalHaber, List.map_append, List.sum_append, List.map_map,
    Function.comp_def]
  have h := sum_map_sub (a.lines.filter (fun l => l.1 = c))
    (fun l => l.2.1) (fun l => l.2.2)
  rw [← h]; ring

theorem saldo_foldl (diario : List Asiento) (led : Ledger) (c : String) :
    saldoMayor (diario.foldl postAsiento led) c =
      saldoMayor led c + replaySaldo diario c := by
  induction diario generalizing led with
  | nil => simp [replaySaldo]
  | cons a rest ih =>
      rw [List.foldl_cons, ih, saldo_postAsiento]
      simp only [replaySaldo, List.map_cons, List.sum_cons]
      ring

/-! ### Preservation of the journal-replay invariant -/

theorem ledgerInv_of_eq (s t : AperturaData) (h : ledgerInv s)
    (h1 : t.libro_diario = s.libro_diario)
    (h2 : t.ledger_accounts = s.ledger_accounts) : ledgerInv t := by
  unfold ledgerInv at *
  rw [h1, h2, h]

theorem ledgerInv_registrar (s : AperturaData) (f d : String) (ls : List Linea)
    (code : String) (h : ledgerInv s) :
    ledgerInv (registrar_en_libro_diario s f d ls code) := by
  unfold ledgerInv registrar_en_libro_diario at *
  simp only [rebuildLedger, List.foldl_append, List.foldl_cons, List.foldl_nil] at *
  rw [h]
  rfl

theorem ledgerInv_recalcular (s : AperturaData) (h : ledgerInv s) :
    ledgerInv (recalcular_totales s) := by
  exact ledgerInv_of_eq s _ h rfl rfl

theorem ledgerInv_runOp (op : Op) (s : AperturaData) (h : ledgerInv s) :
    ledgerInv (runOp op s) := by
  cases op with
  | apertura fecha cash activos =>
      exact ledgerInv_recalcular _
        (ledgerInv_registrar _ _ _ _ _ (ledgerInv_of_eq s _ h rfl rfl))
  | compraEfectivo fecha nombre valor =>
      by_cases hab : s.apertura_realizada
      · simp only [runOp, applyOp, compra_en_efectivo, hab, Bool.not_true,
          Bool.false_eq_true, if_false]
        exact ledgerInv_registrar _ _ _ _ _
          (ledgerInv_recalcular _ (ledgerInv_of_eq s _ h rfl rfl))
      · simp [runOp, applyOp, compra_en_efectivo, hab, h]
  | compraCredito fecha nombre valor =>
      by_cases hab : s.apertura_realizada
      · simp only [runOp, applyOp, compra_a_credito, hab, Bool.not_true,
          Bool.false_eq_true, if_false]
        exact ledgerInv_registrar _ _ _ _ _
          (ledgerInv_recalcular _ (ledgerInv_of_eq s _ h rfl rfl))
      · simp [runOp, applyOp, compra_a_credito, hab, h]
  | compraCombinada fecha nombre valor =>
      by_cases hab : s.apertura_realizada
      · simp only [runOp, applyOp, compra_combinada, hab, Bool.not_true,
          Bool.false_eq_true, if_false]
        exact ledgerInv_registrar _ _ _ _ _
          (ledgerInv_recalcular _ (ledgerInv_of_eq s _ h rfl rfl))
      · simp [runOp, applyOp, compra_combinada, hab, h]
  | pagoRentas fecha nombre valor =>
      by_cases hab : s.apertura_realizada
      · simp only [runOp, applyOp, pago_rentas_op, hab, Bool.not_true,
          Bool.false_eq_true, if_false]
        exact ledgerInv_registrar _ _ _ _ _
          (ledgerInv_recalcular _ (ledgerInv_of_eq s _ h rfl rfl))
      · simp [runOp, applyOp, pago_rentas_op, hab, h]
  | compraPapeleria fecha nombre valor =>
      by_cases hab : s.apertura_realizada
      · simp only [runOp, applyOp, compra_papeleria_op, hab, Bool.not_true,
          Bool.false_eq_true, if_false]
        exact ledgerInv_registrar _ _ _ _ _
          (ledgerInv_recalcular _ (ledgerInv_of_eq s _ h rfl rfl))
      · simp [runOp, applyOp, compra_papeleria_op, hab, h]
  | anticipoClientes fecha nombre venta =>
      by_cases hab : s.apertura_realizada
      · simp only [runOp, applyOp, anticipo_clientes_op, hab, Bool.not_true,
          Bool.false_eq_true, if_false]
        exact ledgerInv_registrar _ _ _ _ _
          (ledgerInv_recalcular _ (ledgerInv_of_eq s _ h rfl rfl))
      · simp [runOp, applyOp, anticipo_clientes_op, hab, h]
  | venta fecha descripcion monto =>
      by_cases hab : s.apertura_realizada
      · simp only [runOp, applyOp, registrar_venta, hab, Bool.not_true,
          Bool.false_eq_true, if_false]
        exact ledgerInv_registrar _ _ _ _ _
          (ledgerInv_recalcular _ (ledgerInv_of_eq s _ h rfl rfl))
      · simp [runOp, applyOp, registrar_venta, hab, h]
  | costoVendido fecha descripcion costo =>
      by_cases hab : s.apertura_realizada
      · by_cases hinv : costo > s.inventario
        · simp [runOp, applyOp, registrar_costo_vendido, hab, hinv, h]
        · simp only [runOp, applyOp, registrar_costo_vendido, hab, Bool.not_true,
            Bool.false_eq_true, if_false, hinv]
          exact ledgerInv_registrar _ _ _ _ _
            (ledgerInv_recalcular _ (ledgerInv_of_eq s _ h rfl rfl))
      · simp [runOp, applyOp, registrar_costo_vendido, hab, h]
  | gastosGenerales fecha descripcion monto =>
      by_cases hab : s.apertura_realizada
      · simp only [runOp, applyOp, registrar_gastos_generales, hab, Bool.not_true,
          Bool.false_eq_true, if_false]
        exact ledgerInv_registrar _ _ _ _ _
          (ledgerInv_recalcular _ (ledgerInv_of_eq s _ h rfl rfl))
      · simp [runOp, applyOp, registrar_gastos_generales, hab, h]
  | anularAnticipo fecha descripcion monto =>
      by_cases hab : s.apertura_realizada
      · simp only [runOp, applyOp, anular_anticipo_cliente, hab, Bool.not_true,
          Bool.false_eq_true, if_false]
        exact ledgerInv_registrar _ _ _ _ _
          (ledgerInv_recalcular _ (ledgerInv_of_eq s _ h rfl rfl))
      · simp [runOp, applyOp, anular_anticipo_cliente, hab, h]
  | depreciacion fecha descripcion deps =>
      by_cases hab : s.apertura_realizada
      · simp only [runOp, applyOp, registrar_depreciacion, hab, Bool.not_true,
          Bool.false_eq_true, if_false]
        exact ledgerInv_recalcular _
          (ledgerInv_registrar _ _ _ _ _ (ledgerInv_of_eq s _ h rfl rfl))
      · simp [runOp, applyOp, registrar_depreciacion, hab, h]

theorem ledgerInv_runOps (ops : List Op) (s : AperturaData) (h : ledgerInv s) :
    ledgerInv (runOps ops s) := by
  induction ops generalizing s with
  | nil => exact h
  | cons op rest ih => exact ih (runOp op s) (ledgerInv_runOp op s h)

theorem ledgerInv_init : ledgerInv initData := by
  unfold ledgerInv initData rebuildLedger
  rfl

/-! ### Trial-balance lemmas -/

theorem diffDebe_sub_diffHaber (d h : ℚ) : diffDebe d h - diffHaber d h = d - h := by
  unfold diffDebe diffHaber
  split <;> ring

theorem sumDiff_eq_net (led : Ledger) :
    sumDebe2 led - sumHaber2 led = ledgerNet led := by
  induction led with
  | nil => simp [sumDebe2, sumHaber2, ledgerNet]
  | cons cp rest ih =>
      simp only [sumDebe2, sumHaber2, ledgerNet, List.map_cons, List.sum_cons] at *
      have h := diffDebe_sub_diffHaber (cuentaTotalDebe cp.2) (cuentaTotalHaber cp.2)
      linarith

theorem net_ledgerAppend (led : Ledger) (c : String) (p : Posting) :
    ledgerNet (ledgerAppend led c p) = ledgerNet led + (p.debe - p.haber) := by
  induction led with
  | nil => simp [ledgerAppend, ledgerNet, cuentaTotalDebe, cuentaTotalHaber]
  | cons hd tl ih =>
      obtain ⟨c0, ps⟩ := hd
      by_cases h : c0 = c
      · subst h
        simp [ledgerAppend, ledgerNet, cuentaTotalDebe, cuentaTotalHaber]
        ring
      · simp only [ledgerAppend, if_neg h, ledgerNet, List.map_cons, List.sum_cons] at *
        rw [ih]; ring

theorem net_post_to_ledger (ls : List Linea) (led : Ledger) (f d code : String) :
    ledgerNet (post_to_ledger led f d ls code) =
      ledgerNet led + (sumaDebe ls - sumaHaber ls) := by
  induction ls generalizing led with
  | nil => simp [post_to_ledger, sumaDebe, sumaHaber]
  | cons l rest ih =>
      have hstep : post_to_ledger led f d (l :: rest) code =
          post_to_ledger (ledgerAppend led l.1 ⟨f, d, code, l.2.1, l.2.2⟩) f d rest code := rfl
      rw [hstep, ih, net_ledgerAppend]
      simp only [sumaDebe, sumaHaber, List.map_cons, List.sum_cons]
      ring

theorem net_foldl (diario : List Asiento) (led : Ledger) :
    ledgerNet (diario.foldl postAsiento led) =
      ledgerNet led +
        (diario.map (fun a => sumaDebe a.lines - sumaHaber a.lines)).sum := by
  induction diario generalizing led with
  | nil => simp
  | cons a rest ih =>
      rw [List.foldl_cons, ih]
      show ledgerNet (post_to_ledger led a.fecha a.descripcion a.lines a.code) + _ = _
      rw [net_post_to_ledger]
      simp only [List.map_cons, List.sum_cons]
      ring

/-! ### Balance-general lemmas -/

theorem totalCostoBG_eq_haberMatch (led : Ledger) :
    totalCostoBG led = haberMatch cadCosto led := rfl

theorem haberMatch_ledgerAppend (sub : String) (led : Ledger) (c : String) (p : Posting) :
    haberMatch sub (ledgerAppend led c p) =
      haberMatch sub led + (if contiene sub c then p.haber else 0) := by
  induction led with
  | nil =>
      by_cases h : contiene sub c <;>
        simp [ledgerAppend, haberMatch, cuentaTotalHaber, h]
  | cons hd tl ih =>
      obtain ⟨c0, ps⟩ := hd
      by_cases h : c0 = c
      · subst h
        by_cases hc : contiene sub c0
        · simp [ledgerAppend, haberMatch, cuentaTotalHaber, hc]
          ring
        · simp [ledgerAppend, haberMatch, cuentaTotalHaber, hc]
      · simp only [ledgerAppend, if_neg h, haberMatch, List.map_cons, List.sum_cons] at *
        rw [ih]; ring

theorem haberMatch_post_to_ledger (sub : String) (ls : List Linea) (led : Ledger)
    (f d code : String) :
    haberMatch sub (post_to_ledger led f d ls code) =
      haberMatch sub led +
        (ls.map (fun l => if contiene sub l.1 then l.2.2 else 0)).sum := by
  induction ls generalizing led with
  | nil => simp [post_to_ledger]
  | cons l rest ih =>
      have hstep : post_to_ledger led f d (l :: rest) code =
          post_to_ledger (ledgerAppend led l.1 ⟨f, d, code, l.2.1, l.2.2⟩) f d rest code := rfl
      rw [hstep, ih, haberMatch_ledgerAppend]
      simp only [List.map_cons, List.sum_cons]
      ring

theorem contieneCosto_caja : contiene cadCosto "Caja" = false := by decide

theorem contieneCosto_acreedores : contiene cadCosto "Acreedores" = false := by decide

theorem contieneCosto_documentos :
    contiene cadCosto "Documentos por Pagar" = false := by decide

theorem contieneCosto_inventario : contiene cadCosto "Inventario" = false := by decide

theorem contieneCosto_ventas : contiene cadCosto "Ventas" = false := by decide

theorem contieneCosto_ivaTrasladado :
    contiene cadCosto "IVA Trasladado" = false := by decide

theorem contieneCosto_capital :
    contiene cadCosto "Capital (Apertura)" = false := by decide

theorem sum_map_zero {α : Type} (l : List α) : (l.map (fun _ => (0:ℚ))).sum = 0 := by
  induction l with
  | nil => simp
  | cons x xs ih => simp [ih]

theorem sum_costoDeps (deps : List (String × ℚ))
    (hdeps : deps.all (fun cv => !(contiene cadCosto cv.1)) = true) :
    (deps.map (fun cv => if contiene cadCosto cv.1 then cv.2 else 0)).sum = 0 := by
  induction deps with
  | nil => simp
  | cons cv rest ih =>
      simp only [List.all_cons, Bool.and_eq_true, Bool.not_eq_true'] at hdeps
      simp [hdeps.1, ih hdeps.2]

theorem costoHaber_registrar (s : AperturaData) (f d : String) (ls : List Linea)
    (code : String) (h : haberMatch cadCosto s.ledger_accounts = 0)
    (hls : (ls.map (fun l => if contiene cadCosto l.1 then l.2.2 else 0)).sum = 0) :
    haberMatch cadCosto (registrar_en_libro_diario s f d ls code).ledger_accounts = 0 := by
  unfold registrar_en_libro_diario
  simp only
  rw [haberMatch_post_to_ledger, h, hls, add_zero]

theorem costoHaber_runOp (op : Op) (s : AperturaData) (hop : opSinCosto op = true)
    (h : haberMatch cadCosto s.ledger_accounts = 0) :
    haberMatch cadCosto (runOp op s).ledger_accounts = 0 := by
  cases op with
  | apertura fecha cash activos =>
      simp only [runOp, applyOp, calcular_asiento_apertura, recalcular_totales]
      apply costoHaber_registrar _ _ _ _ _ (by simpa using h)
      by_cases hc : cash > (0:ℚ) <;>
        simp [hc, contieneCosto_caja, contieneCosto_capital, sum_map_zero,
          Function.comp_def]
  | compraEfectivo fecha nombre valor =>
      by_cases hab : s.apertura_realizada
      · simp only [runOp, applyOp, compra_en_efectivo, hab, Bool.not_true,
          Bool.false_eq_true, if_false]
        exact costoHaber_registrar _ _ _ _ _ (by simpa [recalcular_totales] using h)
          (by simp [contieneCosto_caja])
      · simp [runOp, applyOp, compra_en_efectivo, hab, h]
  | compraCredito fecha nombre valor =>
      by_cases hab : s.apertura_realizada
      · simp only [runOp, applyOp, compra_a_credito, hab, Bool.not_true,
          Bool.false_eq_true, if_false]
        exact costoHaber_registrar _ _ _ _ _ (by simpa [recalcular_totales] using h)
          (by simp [contieneCosto_acreedores])
      · simp [runOp, applyOp, compra_a_credito, hab, h]
  | compraCombinada fecha nombre valor =>
      by_cases hab : s.apertura_realizada
      · simp only [runOp, applyOp, compra_combinada, hab, Bool.not_true,
          Bool.false_eq_true, if_false]
        exact costoHaber_registrar _ _ _ _ _ (by simpa [recalcular_totales] using h)
          (by simp [contieneCosto_caja, contieneCosto_documentos])
      · simp [runOp, applyOp, compra_combinada, hab, h]
  | pagoRentas fecha nombre valor =>
      by_cases hab : s.apertura_realizada
      · simp only [runOp, applyOp, pago_rentas_op, hab, Bool.not_true,
          Bool.false_eq_true, if_false]
        exact costoHaber_registrar _ _ _ _ _ (by simpa [recalcular_totales] using h)
          (by simp [contieneCosto_caja])
      · simp [runOp, applyOp, pago_rentas_op, hab, h]
  | compraPapeleria fecha nombre valor =>
      by_cases hab : s.apertura_realizada
      · simp only [runOp, applyOp, compra_papeleria_op, hab, Bool.not_true,
          Bool.false_eq_true, if_false]
        exact costoHaber_registrar _ _ _ _ _ (by simpa [recalcular_totales] using h)
          (by simp [contieneCosto_caja])
      · simp [runOp, applyOp, compra_papeleria_op, hab, h]
  | anticipoClientes fecha nombre venta =>
      simp only [opSinCosto, Bool.and_eq_true, Bool.not_eq_true'] at hop
      by_cases hab : s.apertura_realizada
      · simp only [runOp, applyOp, anticipo_clientes_op, hab, Bool.not_true,
          Bool.false_eq_true, if_false]
        exact costoHaber_registrar _ _ _ _ _ (by simpa [recalcular_totales] using h)
          (by simp [hop.1, hop.2, contieneCosto_caja])
      · simp [runOp, applyOp, anticipo_clientes_op, hab, h]
  | venta fecha descripcion monto =>
      by_cases hab : s.apertura_realizada
      · simp only [runOp, applyOp, registrar_venta, hab, Bool.not_true,
          Bool.false_eq_true, if_false]
        exact costoHaber_registrar _ _ _ _ _ (by simpa [recalcular_totales] using h)
          (by simp [contieneCosto_ventas, contieneCosto_ivaTrasladado])
      · simp [runOp, applyOp, registrar_venta, hab, h]
  | costoVendido fecha descripcion costo =>
      by_cases hab : s.apertura_realizada
      · by_cases hinv : costo > s.inventario
        · simp [runOp, applyOp, registrar_costo_vendido, hab, hinv, h]
        · simp only [runOp, applyOp, registrar_costo_vendido, hab, Bool.not_true,
            Bool.false_eq_true, if_false, hinv]
          exact costoHaber_registrar _ _ _ _ _ (by simpa [recalcular_totales] using h)
            (by simp [contieneCosto_inventario])
      · simp [runOp, applyOp, registrar_costo_vendido, hab, h]
  | gastosGenerales fecha descripcion monto =>
      by_cases hab : s.apertura_realizada
      · simp only [runOp, applyOp, registrar_gastos_generales, hab, Bool.not_true,
          Bool.false_eq_true, if_false]
        exact costoHaber_registrar _ _ _ _ _ (by simpa [recalcular_totales] using h)
          (by simp [contieneCosto_caja])
      · simp [runOp, applyOp, registrar_gastos_generales, hab, h]
  | anularAnticipo fecha descripcion monto =>
      by_cases hab : s.apertura_realizada
      · simp only [runOp, applyOp, anular_anticipo_cliente, hab, Bool.not_true,
          Bool.false_eq_true, if_false]
        exact costoHaber_registrar _ _ _ _ _ (by simpa [recalcular_totales] using h)
          (by simp [contieneCosto_ventas, contieneCosto_ivaTrasladado])
      · simp [runOp, applyOp, anular_anticipo_cliente, hab, h]
  | depreciacion fecha descripcion deps =>
      simp only [opSinCosto] at hop
      by_cases hab : s.apertura_realizada
      · simp only [runOp, applyOp, registrar_depreciacion, hab, Bool.not_true,
          Bool.false_eq_true, if_false, recalcular_totales]
        apply costoHaber_registrar _ _ _ _ _ (by simpa using h)
        simp [Function.comp_def, sum_costoDeps deps hop]
      · simp [runOp, applyOp, registrar_depreciacion, hab, h]

theorem costoHaber_runOps (ops : List Op) (s : AperturaData)
    (hops : ops.all opSinCosto = true)
    (h : haberMatch cadCosto s.ledger_accounts = 0) :
    haberMatch cadCosto (runOps ops s).ledger_accounts = 0 := by
  induction ops generalizing s with
  | nil => exact h
  | cons op rest ih =>
      simp only [List.all_cons, Bool.and_eq_true] at hops
      exact ih (runOp op s) hops.2 (costoHaber_runOp op s hops.1 h)

/-! ### Claim theorems -/

/-- C1: the claim states that every mutating operation appends a balanced
journal entry; the entry appended by `anular_anticipo_cliente` is not
balanced. In the concrete run below the opening entry sums to
(5000, 5000) but the advance-reversal entry for `monto = 1000` sums to
debit 2160 against credit 1160: the code debits both `Caja` and
`Anticipo de Clientes` while crediting only `IVA Trasladado` and `Ventas`,
leaving an excess debit of `monto`. -/
theorem c1_anular_entry_unbalanced :
    ((runOps [Op.apertura "01/01/2025" 5000 [],
        Op.anularAnticipo "02/01/2025" "saldo de venta" 1000] initData).libro_diario.map
      (fun a => (sumaDebe a.lines, sumaHaber a.lines))) =
      [((5000 : ℚ), (5000 : ℚ)), (2160, 1160)] := by
  norm_num [runOps, runOp, applyOp, calcular_asiento_apertura, anular_anticipo_cliente,
    registrar_en_libro_diario, recalcular_totales, initData, sumaDebe, sumaHaber, sumSnd,
    post_to_ledger, ledgerAppend, msgApertura]

/-- C2: for every operation sequence whose appended journal entries are all
internally balanced, the grand total of the trial balance's debit-difference
column equals the grand total of its credit-difference column; and for every
row, both difference values are non-negative and at most one is nonzero. -/
theorem c2_balanza_comprobacion_cuadra (ops : List Op)
    (hbal : (runOps ops initData).libro_diario.all
      (fun a => sumaDebe a.lines == sumaHaber a.lines) = true) :
    sumDebe2 (runOps ops initData).ledger_accounts =
      sumHaber2 (runOps ops initData).ledger_accounts ∧
    ∀ cp ∈ (runOps ops initData).ledger_accounts,
      0 ≤ diffDebe (cuentaTotalDebe cp.2) (cuentaTotalHaber cp.2) ∧
      0 ≤ diffHaber (cuentaTotalDebe cp.2) (cuentaTotalHaber cp.2) ∧
      (diffDebe (cuentaTotalDebe cp.2) (cuentaTotalHaber cp.2) = 0 ∨
        diffHaber (cuentaTotalDebe cp.2) (cuentaTotalHaber cp.2) = 0) := by
  constructor
  · have hbal1 : ∀ a ∈ (runOps ops initData).libro_diario,
        sumaDebe a.lines = sumaHaber a.lines := by
      simpa using hbal
    have hinv := ledgerInv_runOps ops initData ledgerInv_init
    unfold ledgerInv at hinv
    have hz : ∀ x ∈ ((runOps ops initData).libro_diario.map
        (fun a => sumaDebe a.lines - sumaHaber a.lines)), x = 0 := by
      intro x hx
      rcases List.mem_map.mp hx with ⟨a, ha, rfl⟩
      have := hbal1 a ha
      linarith
    have hnet : ledgerNet (runOps ops initData).ledger_accounts = 0 := by
      rw [hinv]
      unfold rebuildLedger
      rw [net_foldl, List.sum_eq_zero hz]
      simp [ledgerNet]
    have hdiff := sumDiff_eq_net (runOps ops initData).ledger_accounts
    linarith
  · intro cp _
    by_cases hd : cuentaTotalDebe cp.2 > cuentaTotalHaber cp.2
    · refine ⟨?_, ?_, Or.inr ?_⟩ <;> simp only [diffDebe, diffHaber, if_pos hd]
      · linarith
      · linarith
    · refine ⟨?_, ?_, Or.inl ?_⟩ <;> simp only [diffDebe, diffHaber, if_neg hd]
      · linarith
      · have := not_lt.mp hd
        linarith

/-- Witness for C2: a concrete opening followed by a cash purchase; both
appended entries are balanced and the two difference-column grand totals of
the resulting trial balance coincide. -/
theorem c2_balanza_comprobacion_cuadra_witness :
    ((runOps [Op.apertura "01/01/2025" 10000 [],
        Op.compraEfectivo "02/01/2025" "Mercancia" 1000] initData).libro_diario.all
      (fun a => sumaDebe a.lines == sumaHaber a.lines) = true) ∧
    sumDebe2 (runOps [Op.apertura "01/01/2025" 10000 [],
        Op.compraEfectivo "02/01/2025" "Mercancia" 1000] initData).ledger_accounts =
      sumHaber2 (runOps [Op.apertura "01/01/2025" 10000 [],
        Op.compraEfectivo "02/01/2025" "Mercancia" 1000] initData).ledger_accounts :=
  ⟨by norm_num [runOps, runOp, applyOp, calcular_asiento_apertura, compra_en_efectivo,
      registrar_en_libro_diario, recalcular_totales, initData, sumaDebe, sumaHaber,
      sumSnd, post_to_ledger, ledgerAppend],
    (c2_balanza_comprobacion_cuadra
      [Op.apertura "01/01/2025" 10000 [], Op.compraEfectivo "02/01/2025" "Mercancia" 1000]
      (by norm_num [runOps, runOp, applyOp, calcular_asiento_apertura, compra_en_efectivo,
        registrar_en_libro_diario, recalcular_totales, initData, sumaDebe, sumaHaber,
        sumSnd, post_to_ledger, ledgerAppend])).1⟩

/-- C3: after every sequence of operations, for every account name, the
balance shown by the ledger report (`SALDO` of `generar_tabla_mayor`,
computed from the postings of exactly that account) equals the balance
obtained by independently replaying the journal log. -/
theorem c3_mayor_refines_diario (ops : List Op) (cuenta : String) :
    saldoMayor (runOps ops initData).ledger_accounts cuenta =
      replaySaldo (runOps ops initData).libro_diario cuenta := by
  have hinv := ledgerInv_runOps ops initData ledgerInv_init
  unfold ledgerInv at hinv
  rw [hinv]
  unfold rebuildLedger
  rw [saldo_foldl]
  simp [saldoMayor, lookupCuenta, cuentaTotalDebe, cuentaTotalHaber]

/-- C4: in an opened state, cost of goods sold with `costo` greater than the
inventory balance fails with the domain error and leaves the whole state
unchanged; with `costo` at most the inventory balance it succeeds, decreases
inventory by exactly `costo`, and appends the 2-line entry debiting
`Costo de lo Vendido` and crediting `Inventario` for `costo`. -/
theorem c4_costo_vendido_guard (s : AperturaData) (fecha descripcion : String)
    (costo : ℚ) (hab : s.apertura_realizada = true) :
    (costo > s.inventario →
      registrar_costo_vendido s fecha descripcion costo = .error msgInventario ∧
      runOp (Op.costoVendido fecha descripcion costo) s = s) ∧
    (costo ≤ s.inventario →
      esOk (registrar_costo_vendido s fecha descripcion costo) = true ∧
      (runOp (Op.costoVendido fecha descripcion costo) s).inventario =
        s.inventario - costo ∧
      (runOp (Op.costoVendido fecha descripcion costo) s).libro_diario =
        s.libro_diario ++
          [⟨fecha, "Costo de lo Vendido - " ++ descripcion,
            [("Costo de lo Vendido", costo, 0), ("Inventario", 0, costo)], "CV"⟩]) := by
  constructor
  · intro hgt
    constructor
    · simp [registrar_costo_vendido, hab, hgt]
    · simp [runOp, applyOp, registrar_costo_vendido, hab, hgt]
  · intro hle
    have hngt : ¬ costo > s.inventario := not_lt.mpr hle
    refine ⟨?_, ?_, ?_⟩ <;>
      simp [esOk, runOp, applyOp, registrar_costo_vendido, hab, hngt,
        registrar_en_libro_diario, recalcular_totales]

/-- Witness for C4: after opening with 10000 and a cash purchase of 1000 the
inventory is 1000; a cost of 1500 is rejected with the domain error, while a
cost of 400 leaves inventory 1000 - 400. -/
theorem c4_costo_vendido_guard_witness :
    (runOps [Op.apertura "01/01/2025" 10000 [],
        Op.compraEfectivo "02/01/2025" "Mercancia" 1000] initData).apertura_realizada
      = true ∧
    registrar_costo_vendido
      (runOps [Op.apertura "01/01/2025" 10000 [],
        Op.compraEfectivo "02/01/2025" "Mercancia" 1000] initData)
      "03/01/2025" "venta" 1500 = .error msgInventario ∧
    (runOp (Op.costoVendido "03/01/2025" "venta" 400)
      (runOps [Op.apertura "01/01/2025" 10000 [],
        Op.compraEfectivo "02/01/2025" "Mercancia" 1000] initData)).inventario =
      (runOps [Op.apertura "01/01/2025" 10000 [],
        Op.compraEfectivo "02/01/2025" "Mercancia" 1000] initData).inventario - 400 :=
  ⟨rfl,
    ((c4_costo_vendido_guard _ "03/01/2025" "venta" 1500 rfl).1
      (by norm_num [runOps, runOp, applyOp, calcular_asiento_apertura, compra_en_efectivo,
        registrar_en_libro_diario, recalcular_totales, initData, sumSnd, post_to_ledger,
        ledgerAppend])).1,
    ((c4_costo_vendido_guard _ "03/01/2025" "venta" 400 rfl).2
      (by norm_num [runOps, runOp, applyOp, calcular_asiento_apertura, compra_en_efectivo,
        registrar_en_libro_diario, recalcular_totales, initData, sumSnd, post_to_ledger,
        ledgerAppend])).2.1⟩

/-- C5: every mutating operation other than the opening, invoked on a state
that is not yet opened, fails with the precondition error and leaves the
state unchanged; in particular (the instance `s := initData` exercised by
the witness) it leaves the initial state, with all balances zero and the
journal and ledger empty, intact. -/
theorem c5_pre_apertura_error (op : Op) (s : AperturaData)
    (hnot : opEsApertura op = false) (hcl : s.apertura_realizada = false) :
    applyOp op s = .error msgApertura ∧ runOp op s = s := by
  have herr : applyOp op s = .error msgApertura := by
    cases op <;> simp_all [applyOp, opEsApertura, compra_en_efectivo, compra_a_credito,
      compra_combinada, pago_rentas_op, compra_papeleria_op, anticipo_clientes_op,
      registrar_venta, registrar_costo_vendido, registrar_gastos_generales,
      anular_anticipo_cliente, registrar_depreciacion]
  exact ⟨herr, by simp [runOp, herr]⟩

/-- Witness for C5: a sale invoked on the initial (unopened) state is
rejected and the initial state, whose journal and ledger are empty, is
unchanged. -/
theorem c5_pre_apertura_error_witness :
    opEsApertura (Op.venta "01/01/2025" "venta" 500) = false ∧
    initData.apertura_realizada = false ∧
    (applyOp (Op.venta "01/01/2025" "venta" 500) initData = .error msgApertura ∧
      runOp (Op.venta "01/01/2025" "venta" 500) initData = initData) ∧
    initData.caja = 0 ∧ initData.libro_diario = [] ∧ initData.ledger_accounts = [] :=
  ⟨rfl, rfl, c5_pre_apertura_error (Op.venta "01/01/2025" "venta" 500) initData rfl rfl,
    rfl, rfl, rfl⟩

/-- C6: in an opened state, a cash purchase of `valor` posts tax
`valor * iva_rate`, decreases cash by exactly `valor * (1 + iva_rate)`,
increases inventory by exactly `valor`, increases the input-tax credit by
exactly `valor * iva_rate`, and appends exactly one 3-line entry (inventory
debit, tax debit, cash credit). -/
theorem c6_compra_efectivo_montos (s : AperturaData) (fecha nombre : String)
    (valor : ℚ) (hab : s.apertura_realizada = true) :
    esOk (compra_en_efectivo s fecha nombre valor) = true ∧
    (runOp (Op.compraEfectivo fecha nombre valor) s).caja =
      s.caja - valor * (1 + s.iva_rate) ∧
    (runOp (Op.compraEfectivo fecha nombre valor) s).inventario =
      s.inventario + valor ∧
    (runOp (Op.compraEfectivo fecha nombre valor) s).iva_acreditable =
      s.iva_acreditable + valor * s.iva_rate ∧
    (runOp (Op.compraEfectivo fecha nombre valor) s).libro_diario =
      s.libro_diario ++
        [⟨fecha, "Compra en Efectivo - " ++ nombre,
          [("Inventario", valor, 0), ("IVA Acreditable", valor * s.iva_rate, 0),
            ("Caja", 0, valor * (1 + s.iva_rate))], "1"⟩] := by
  refine ⟨?_, ?_, ?_, ?_, ?_⟩ <;>
    simp [esOk, runOp, applyOp, compra_en_efectivo, hab, registrar_en_libro_diario,
      recalcular_totales] <;>
    ring

/-- Witness for C6: after opening with 10000, a cash purchase of 1000 leaves
cash 10000 - 1000 * 1.16. -/
theorem c6_compra_efectivo_montos_witness :
    (runOps [Op.apertura "01/01/2025" 10000 []] initData).apertura_realizada = true ∧
    (runOp (Op.compraEfectivo "02/01/2025" "Equipo" 1000)
      (runOps [Op.apertura "01/01/2025" 10000 []] initData)).caja =
      (runOps [Op.apertura "01/01/2025" 10000 []] initData).caja -
        1000 * (1 + (runOps [Op.apertura "01/01/2025" 10000 []] initData).iva_rate) :=
  ⟨rfl, (c6_compra_efectivo_montos _ "02/01/2025" "Equipo" 1000 rfl).2.1⟩

/-- C7: in an opened state, a combined purchase of `valor` decreases cash by
exactly `valor / 2 * (1 + iva_rate)`, increases notes payable by the same
amount, increases each of the two input-tax buckets by
`valor * iva_rate / 2`, appends `(nombre, valor)` exactly once (with the
full value) to the non-current-asset list, and appends exactly one 5-line
entry. -/
theorem c7_compra_combinada_montos (s : AperturaData) (fecha nombre : String)
    (valor : ℚ) (hab : s.apertura_realizada = true) :
    esOk (compra_combinada s fecha nombre valor) = true ∧
    (runOp (Op.compraCombinada fecha nombre valor) s).caja =
      s.caja - valor / 2 * (1 + s.iva_rate) ∧
    (runOp (Op.compraCombinada fecha nombre valor) s).documentos_por_pagar =
      s.documentos_por_pagar + valor / 2 * (1 + s.iva_rate) ∧
    (runOp (Op.compraCombinada fecha nombre valor) s).iva_acreditable =
      s.iva_acreditable + valor * s.iva_rate / 2 ∧
    (runOp (Op.compraCombinada fecha nombre valor) s).iva_por_acreditar =
      s.iva_por_acreditar + valor * s.iva_rate / 2 ∧
    (runOp (Op.compraCombinada fecha nombre valor) s).activos_no_circulantes =
      s.activos_no_circulantes ++ [(nombre, valor)] ∧
    (runOp (Op.compraCombinada fecha nombre valor) s).libro_diario =
      s.libro_diario ++
        [⟨fecha, "Compra Combinada - " ++ nombre,
          [(nombre, valor, 0),
            ("IVA Acreditable", valor * s.iva_rate / 2, 0),
            ("IVA por Acreditar", valor * s.iva_rate / 2, 0),
            ("Caja", 0, valor / 2 * (1 + s.iva_rate)),
            ("Documentos por Pagar", 0, valor / 2 * (1 + s.iva_rate))], "3"⟩] := by
  refine ⟨?_, ?_, ?_, ?_, ?_, ?_, ?_⟩ <;>
    simp [esOk, runOp, applyOp, compra_combinada, hab, registrar_en_libro_diario,
      recalcular_totales] <;>
    ring

/-- Witness for C7: after opening with 10000, a combined purchase of 1000
moves cash down and notes payable up by 1000 / 2 * 1.16 each. -/
theorem c7_compra_combinada_montos_witness :
    (runOps [Op.apertura "01/01/2025" 10000 []] initData).apertura_realizada = true ∧
    (runOp (Op.compraCombinada "02/01/2025" "Edificio" 1000)
      (runOps [Op.apertura "01/01/2025" 10000 []] initData)).documentos_por_pagar =
      (runOps [Op.apertura "01/01/2025" 10000 []] initData).documentos_por_pagar +
        1000 / 2 * (1 + (runOps [Op.apertura "01/01/2025" 10000 []] initData).iva_rate) :=
  ⟨rfl, (c7_compra_combinada_montos _ "02/01/2025" "Edificio" 1000 rfl).2.2.1⟩

/-- C8 counterexample: the claim states that re-opening an already-opened
engine fails with a precondition error; in fact, after an opening the state
is opened, yet a second invocation of the opening operation succeeds. -/
theorem c8_reapertura_counterexample :
    (runOps [Op.apertura "01/01/2025" 100 []] initData).apertura_realizada = true ∧
    esOk (applyOp (Op.apertura "02/01/2025" 100 [])
      (runOps [Op.apertura "01/01/2025" 100 []] initData)) = true :=
  ⟨rfl, rfl⟩

/-- C8 (amended): the opening operation never fails — the engine has no
already-opened check (the guard lives in the UI caller, not the engine): on
any state, opened or not, it succeeds, marks the state opened, and appends
one more opening entry to the journal. -/
theorem c8_apertura_nunca_falla (fecha : String) (cash : ℚ)
    (activos : List (String × ℚ)) (s : AperturaData) :
    esOk (applyOp (Op.apertura fecha cash activos) s) = true ∧
    (runOp (Op.apertura fecha cash activos) s).apertura_realizada = true ∧
    (runOp (Op.apertura fecha cash activos) s).libro_diario.length =
      s.libro_diario.length + 1 := by
  refine ⟨rfl, ?_, ?_⟩ <;>
    simp [runOp, applyOp, calcular_asiento_apertura, registrar_en_libro_diario,
      recalcular_totales]

/-- C9: for every sequence of operations in which postings to accounts named
with the substring `Costo de lo Vendido` can only come from the
cost-of-goods operation (no caller-supplied account name contains that
substring), the income statement's cost-of-goods total is 0 — the report
sums the credit field while the operation posts only a debit — and the
reported gross profit equals the reported total sales. -/
theorem c9_costo_cero_utilidad_ventas (ops : List Op)
    (hops : ops.all opSinCosto = true) :
    totalCostoBG (runOps ops initData).ledger_accounts = 0 ∧
    utilidadBrutaBG (runOps ops initData).ledger_accounts =
      totalVentasBG (runOps ops initData).ledger_accounts := by
  have h0 : haberMatch cadCosto initData.ledger_accounts = 0 := by
    simp [haberMatch, initData]
  have h := costoHaber_runOps ops initData hops h0
  rw [totalCostoBG_eq_haberMatch]
  refine ⟨h, ?_⟩
  unfold utilidadBrutaBG
  rw [totalCostoBG_eq_haberMatch, h]
  ring

/-- Witness for C9: a run with an opening, a cash purchase, a sale and a
cost-of-goods operation satisfies the name hypothesis, and its reported
cost-of-goods total is 0. -/
theorem c9_costo_cero_utilidad_ventas_witness :
    ([Op.apertura "01/01/2025" 10000 [], Op.compraEfectivo "02/01/2025" "Mercancia" 1000,
        Op.venta "03/01/2025" "venta" 500,
        Op.costoVendido "03/01/2025" "venta" 300].all opSinCosto = true) ∧
    totalCostoBG (runOps [Op.apertura "01/01/2025" 10000 [],
        Op.compraEfectivo "02/01/2025" "Mercancia" 1000,
        Op.venta "03/01/2025" "venta" 500,
        Op.costoVendido "03/01/2025" "venta" 300] initData).ledger_accounts = 0 :=
  ⟨by decide,
    (c9_costo_cero_utilidad_ventas
      [Op.apertura "01/01/2025" 10000 [], Op.compraEfectivo "02/01/2025" "Mercancia" 1000,
        Op.venta "03/01/2025" "venta" 500, Op.costoVendido "03/01/2025" "venta" 300]
      (by decide)).1⟩

/-- C10: every mutating operation other than the opening, invoked in an
opened state, leaves the `capital` field unchanged: only the opening assigns
it and the totals recomputation never writes it (this also covers the
rejected cost-of-goods case, where the whole state is kept). -/
theorem c10_capital_sin_cambio (op : Op) (s : AperturaData)
    (hnot : opEsApertura op = false) (hab : s.apertura_realizada = true) :
    (runOp op s).capital = s.capital := by
  cases op with
  | apertura fecha cash activos => simp [opEsApertura] at hnot
  | compraEfectivo fecha nombre valor =>
      simp [runOp, applyOp, compra_en_efectivo, hab, registrar_en_libro_diario,
        recalcular_totales]
  | compraCredito fecha nombre valor =>
      simp [runOp, applyOp, compra_a_credito, hab, registrar_en_libro_diario,
        recalcular_totales]
  | compraCombinada fecha nombre valor =>
      simp [runOp, applyOp, compra_combinada, hab, registrar_en_libro_diario,
        recalcular_totales]
  | pagoRentas fecha nombre valor =>
      simp [runOp, applyOp, pago_rentas_op, hab, registrar_en_libro_diario,
        recalcular_totales]
  | compraPapeleria fecha nombre valor =>
      simp [runOp, applyOp, compra_papeleria_op, hab, registrar_en_libro_diario,
        recalcular_totales]
  | anticipoClientes fecha nombre venta =>
      simp [runOp, applyOp, anticipo_clientes_op, hab, registrar_en_libro_diario,
        recalcular_totales]
  | venta fecha descripcion monto =>
      simp [runOp, applyOp, registrar_venta, hab, registrar_en_libro_diario,
        recalcular_totales]
  | costoVendido fecha descripcion costo =>
      by_cases hinv : costo > s.inventario
      · simp [runOp, applyOp, registrar_costo_vendido, hab, hinv]
      · simp [runOp, applyOp, registrar_costo_vendido, hab, hinv,
          registrar_en_libro_diario, recalcular_totales]
  | gastosGenerales fecha descripcion monto =>
      simp [runOp, applyOp, registrar_gastos_generales, hab, registrar_en_libro_diario,
        recalcular_totales]
  | anularAnticipo fecha descripcion monto =>
      simp [runOp, applyOp, anular_anticipo_cliente, hab, registrar_en_libro_diario,
        recalcular_totales]
  | depreciacion fecha descripcion deps =>
      simp [runOp, applyOp, registrar_depreciacion, hab, registrar_en_libro_diario,
        recalcular_totales]

/-- Witness for C10: a sale in an opened state keeps the capital value. -/
theorem c10_capital_sin_cambio_witness :
    opEsApertura (Op.venta "02/01/2025" "venta" 500) = false ∧
    (runOps [Op.apertura "01/01/2025" 10000 []] initData).apertura_realizada = true ∧
    (runOp (Op.venta "02/01/2025" "venta" 500)
      (runOps [Op.apertura "01/01/2025" 10000 []] initData)).capital =
      (runOps [Op.apertura "01/01/2025" 10000 []] initData).capital :=
  ⟨rfl, rfl,
    c10_capital_sin_cambio (Op.venta "02/01/2025" "venta" 500)
      (runOps [Op.apertura "01/01/2025" 10000 []] initData) rfl rfl⟩

end Balance
